import Mathlib

/-!
Shallow embedding of the twindle-connect student-community application:
the database schema, constraints and row-level-security policies declared in
`supabase/migrations/20251118073708_*.sql`, and the client-side handlers of
`src/pages/Community.tsx`, `src/pages/Connect.tsx` and
`src/pages/CommunityDetail.tsx`.

UUID columns are modelled as `Nat`, timestamps as `Nat`, nullable columns as
`Option`.  Tables are lists of rows; an insert returns `Except String DB`
(an `.error` leaves the database unchanged, exactly as a failed SQL insert
does).  `auth.uid()` is an `Option Nat` (`none` = unauthenticated); a SQL
comparison with NULL is never satisfied, so every RLS check against
`auth.uid()` fails for `none`.
-/

namespace Twindle

/-- Row of `public.profiles` (columns relevant to the verified claims). -/
structure ProfileRow where
  id : Nat
  full_name : String
  email : String
  branch : String
  college : String
deriving Repr, DecidableEq

/-- Row of `public.communities`. -/
structure CommunityRow where
  id : Nat
  name : String
  description : Option String
  is_public : Bool
  is_default : Bool
  branch_category : Option String
  invite_code : Option String
  creator_id : Option Nat
deriving Repr, DecidableEq

/-- Row of `public.community_members`: `UNIQUE (community_id, user_id)`. -/
structure CommunityMemberRow where
  id : Nat
  community_id : Nat
  user_id : Nat
deriving Repr, DecidableEq

/-- Row of `public.projects`. -/
structure ProjectRow where
  id : Nat
  title : String
  description : Option String
  host_id : Nat
  skills_required : List String
  status : String
deriving Repr, DecidableEq

/-- SQL enum `public.participation_type`. -/
inductive ParticipationType where
  | host
  | participant
deriving Repr, DecidableEq

/-- Row of `public.project_members`: `UNIQUE (project_id, user_id)`. -/
structure ProjectMemberRow where
  id : Nat
  project_id : Nat
  user_id : Nat
  participation_type : ParticipationType
deriving Repr, DecidableEq

/-- Row of `public.startups`. -/
structure StartupRow where
  id : Nat
  name : String
  description : Option String
  founder_id : Nat
  looking_for : Option String
  status : String
deriving Repr, DecidableEq

/-- Row of `public.startup_members`: `UNIQUE (startup_id, user_id)`. -/
structure StartupMemberRow where
  id : Nat
  startup_id : Nat
  user_id : Nat
  role : Option String
deriving Repr, DecidableEq

/-- Row of `public.community_posts` (the community chat message table used by
`CommunityDetail.tsx`). -/
structure PostRow where
  id : Nat
  community_id : Nat
  user_id : Nat
  content : String
  created_at : Nat
deriving Repr, DecidableEq

/-- The database state: one list of rows per table. -/
structure DB where
  profiles : List ProfileRow
  communities : List CommunityRow
  community_members : List CommunityMemberRow
  projects : List ProjectRow
  project_members : List ProjectMemberRow
  startups : List StartupRow
  startup_members : List StartupMemberRow
  community_posts : List PostRow
deriving Repr, DecidableEq

/-- The empty database. -/
def DB.empty : DB := ⟨[], [], [], [], [], [], [], []⟩

/-! ### Insert operations

Each insert enforces, in order: primary-key uniqueness, the declared UNIQUE
constraint of the table, and the RLS `WITH CHECK` clause of the table.  An insert that
fails any check returns `.error` and produces no new database state (the
table is unchanged). -/

/-- Insert into `public.communities`.  PK `id`; `invite_code TEXT UNIQUE`
(SQL UNIQUE ignores NULLs); RLS `WITH CHECK (auth.uid() = creator_id)`
("Authenticated users can create communities"). -/
def insertCommunity (db : DB) (uid : Option Nat) (row : CommunityRow) :
    Except String DB :=
  if db.communities.any (fun c => c.id == row.id) then
    .error "duplicate key value violates primary key"
  else if row.invite_code.isSome &&
      db.communities.any (fun c => c.invite_code == row.invite_code) then
    .error "duplicate key value violates communities_invite_code_key"
  else if !(match uid, row.creator_id with
            | some u, some cr => u == cr
            | _, _ => false) then
    .error "new row violates row-level security policy"
  else
    .ok { db with communities := db.communities ++ [row] }

/-- Insert into `public.community_members`.  PK `id`;
`UNIQUE (community_id, user_id)`; RLS `WITH CHECK (auth.uid() = user_id)`
("Users can join communities"). -/
def insertCommunityMember (db : DB) (uid : Option Nat)
    (row : CommunityMemberRow) : Except String DB :=
  if db.community_members.any (fun m => m.id == row.id) then
    .error "duplicate key value violates primary key"
  else if db.community_members.any
      (fun m => m.community_id == row.community_id &&
                m.user_id == row.user_id) then
    .error "duplicate key value violates community_members_community_id_user_id_key"
  else if !(uid == some row.user_id) then
    .error "new row violates row-level security policy"
  else
    .ok { db with community_members := db.community_members ++ [row] }

/-- Insert into `public.projects`.  PK `id`; RLS
`WITH CHECK (auth.uid() = host_id)` ("Authenticated users can create projects"). -/
def insertProject (db : DB) (uid : Option Nat) (row : ProjectRow) :
    Except String DB :=
  if db.projects.any (fun p => p.id == row.id) then
    .error "duplicate key value violates primary key"
  else if !(uid == some row.host_id) then
    .error "new row violates row-level security policy"
  else
    .ok { db with projects := db.projects ++ [row] }

/-- Insert into `public.project_members`.  PK `id`;
`UNIQUE (project_id, user_id)`; RLS `WITH CHECK (auth.uid() = user_id)`
("Users can join projects"). -/
def insertProjectMember (db : DB) (uid : Option Nat)
    (row : ProjectMemberRow) : Except String DB :=
  if db.project_members.any (fun m => m.id == row.id) then
    .error "duplicate key value violates primary key"
  else if db.project_members.any
      (fun m => m.project_id == row.project_id &&
                m.user_id == row.user_id) then
    .error "duplicate key value violates project_members_project_id_user_id_key"
  else if !(uid == some row.user_id) then
    .error "new row violates row-level security policy"
  else
    .ok { db with project_members := db.project_members ++ [row] }

/-- Insert into `public.startups`.  PK `id`; RLS
`WITH CHECK (auth.uid() = founder_id)` ("Authenticated users can create startups"). -/
def insertStartup (db : DB) (uid : Option Nat) (row : StartupRow) :
    Except String DB :=
  if db.startups.any (fun s => s.id == row.id) then
    .error "duplicate key value violates primary key"
  else if !(uid == some row.founder_id) then
    .error "new row violates row-level security policy"
  else
    .ok { db with startups := db.startups ++ [row] }

/-- Insert into `public.startup_members`.  PK `id`;
`UNIQUE (startup_id, user_id)`; RLS `WITH CHECK (auth.uid() = user_id)`
("Users can join startups"). -/
def insertStartupMember (db : DB) (uid : Option Nat)
    (row : StartupMemberRow) : Except String DB :=
  if db.startup_members.any (fun m => m.id == row.id) then
    .error "duplicate key value violates primary key"
  else if db.startup_members.any
      (fun m => m.startup_id == row.startup_id &&
                m.user_id == row.user_id) then
    .error "duplicate key value violates startup_members_startup_id_user_id_key"
  else if !(uid == some row.user_id) then
    .error "new row violates row-level security policy"
  else
    .ok { db with startup_members := db.startup_members ++ [row] }

/-! ### SELECT policies

SQL name resolution inside a policy subquery prefers the columns of the
own FROM table of the subquery; only names not found there refer to the outer row.
Both membership-based SELECT policies of the migration are translated with
that rule applied literally. -/

/-- USING clause of "Public communities are viewable by everyone":
`is_public = true OR EXISTS (SELECT 1 FROM public.community_members
WHERE community_id = id AND user_id = auth.uid())`.
Inside the subquery both `community_id` and `id` are columns of
`community_members`, so the correlation reads
`community_members.community_id = community_members.id`, not
`... = communities.id`. -/
def communitiesSelectPolicy (db : DB) (uid : Option Nat)
    (_c : CommunityRow) : Bool :=
  _c.is_public ||
    db.community_members.any
      (fun m => m.community_id == m.id && some m.user_id == uid)

/-- A SELECT over `public.communities` as seen by actor `uid`: RLS keeps
exactly the rows whose USING clause holds. -/
def selectCommunities (db : DB) (uid : Option Nat) : List CommunityRow :=
  db.communities.filter (communitiesSelectPolicy db uid)

/-- USING clause of "Community members are viewable by community members":
`EXISTS (SELECT 1 FROM public.community_members cm
WHERE cm.community_id = community_id AND cm.user_id = auth.uid())`.
The unqualified `community_id` resolves to the subquery table `cm`, so the
first conjunct is `cm.community_id = cm.community_id`, which is always true. -/
def communityMembersSelectPolicy (db : DB) (uid : Option Nat)
    (_row : CommunityMemberRow) : Bool :=
  db.community_members.any
    (fun cm => cm.community_id == cm.community_id && some cm.user_id == uid)

/-- A SELECT over `public.community_members` as seen by actor `uid`. -/
def selectCommunityMembers (db : DB) (uid : Option Nat) :
    List CommunityMemberRow :=
  db.community_members.filter (communityMembersSelectPolicy db uid)

/-! ### `generate_invite_code`

The SQL function loops: draw a random 8-character code, exit when no row of
`communities` stores it.  The randomness is modelled as a candidate stream
`cands : Nat → String`; the unbounded LOOP is given fuel and returns `none`
when the fuel runs out (the SQL function would still be looping). -/

/-- Body of the `generate_invite_code` LOOP: try candidate `i`, retry with
`i + 1` while the candidate is an `invite_code` of some `communities` row. -/
def genInviteCodeLoop (db : DB) (cands : Nat → String) :
    Nat → Nat → Option String
  | 0, _ => none
  | fuel + 1, i =>
    if db.communities.any (fun c => c.invite_code == some (cands i)) then
      genInviteCodeLoop db cands fuel (i + 1)
    else
      some (cands i)

/-- `public.generate_invite_code()`, starting from the first candidate. -/
def generate_invite_code (db : DB) (cands : Nat → String) (fuel : Nat) :
    Option String :=
  genInviteCodeLoop db cands fuel 0

/-! ### String helpers

`jsSplitComma`/`jsTrim` embed the JavaScript expressions
`s.split(',')` and `s.trim()` used by `handleCreateProject`;
`likeMatch` embeds the SQL `ILIKE` pattern matching (case-insensitive,
`%` = any sequence, `_` = any single character) used by
`auto_join_default_community`. -/

/-- JavaScript `s.split(',')`: splits at every comma, keeps empty pieces,
and returns `[""]` for the empty string. -/
def jsSplitComma : List Char → List (List Char)
  | [] => [[]]
  | c :: rest =>
    if c = ',' then
      [] :: jsSplitComma rest
    else
      match jsSplitComma rest with
      | [] => [[c]]
      | piece :: pieces => (c :: piece) :: pieces

/-- JavaScript `s.trim()`: drop whitespace from both ends. -/
def jsTrim (s : List Char) : List Char :=
  ((s.dropWhile Char.isWhitespace).reverse.dropWhile Char.isWhitespace).reverse

/-- `newProject.skills.split(',').map(s => s.trim())` from
`handleCreateProject` in `Connect.tsx`. -/
def parseSkills (s : String) : List String :=
  (jsSplitComma s.toList).map (fun cs => String.mk (jsTrim cs))

/-- SQL LIKE/ILIKE matching of a string against a pattern, case-insensitive:
`%` matches any sequence, `_` matches any single character, other characters
match themselves up to case.  Structural recursion on a fuel argument (each
step shortens the pattern or the string, so `likeMatch` always passes
enough fuel). -/
def likeMatchF : Nat → List Char → List Char → Bool
  | 0, _, _ => false
  | _ + 1, [], s => s.isEmpty
  | f + 1, '%' :: p, s =>
    likeMatchF f p s ||
      (match s with
       | [] => false
       | _ :: s2 => likeMatchF f ('%' :: p) s2)
  | f + 1, '_' :: p, s =>
    (match s with
     | [] => false
     | _ :: s2 => likeMatchF f p s2)
  | f + 1, c :: p, s =>
    (match s with
     | [] => false
     | c2 :: s2 => c.toLower == c2.toLower && likeMatchF f p s2)

/-- LIKE/ILIKE matching with sufficient fuel. -/
def likeMatch (p s : List Char) : Bool :=
  likeMatchF (p.length + s.length + 1) p s

/-- `str ILIKE pat`. -/
def ilike (str pat : String) : Bool :=
  likeMatch pat.toList str.toList

/-- `leadMatch needle hay`: `needle` is an initial segment of `hay`. -/
def leadMatch : List Char → List Char → Bool
  | [], _ => true
  | _ :: _, [] => false
  | a :: as, b :: bs => a == b && leadMatch as bs

/-- `needle` occurs as a contiguous substring of `hay`. -/
def containsSub : List Char → List Char → Bool
  | needle, [] => needle.isEmpty
  | needle, c :: rest => leadMatch needle (c :: rest) || containsSub needle rest

/-- Case-insensitive containment of `needle` in `hay` (the matching
criterion the specification describes in words). -/
def containsCI (hay needle : String) : Bool :=
  containsSub (needle.toList.map Char.toLower) (hay.toList.map Char.toLower)

/-! ### `auto_join_default_community`

Trigger fired AFTER INSERT ON `public.profiles` (SECURITY DEFINER, so no RLS
applies to its own statements). -/

/-- The WHERE clause of the lookup in the trigger:
`is_default = true AND (branch_category = NEW.branch OR
branch_category ILIKE '%' || NEW.branch || '%')`.
A NULL `branch_category` satisfies neither comparison. -/
def branchMatches (branch : String) (c : CommunityRow) : Bool :=
  c.is_default &&
    (match c.branch_category with
     | none => false
     | some cat => cat == branch || ilike cat ("%" ++ branch ++ "%"))

/-- Body of `public.auto_join_default_community()` for the new profile `p`:
pick one matching default community (`LIMIT 1`), then
`INSERT INTO community_members ... ON CONFLICT DO NOTHING` with fresh
membership id `newId`. -/
def auto_join_default_community (db : DB) (p : ProfileRow) (newId : Nat) :
    DB :=
  match db.communities.find? (branchMatches p.branch) with
  | none => db
  | some c =>
    if db.community_members.any
        (fun m => m.id == newId ||
                  (m.community_id == c.id && m.user_id == p.id)) then
      db
    else
      { db with community_members :=
          db.community_members ++ [⟨newId, c.id, p.id⟩] }

/-- Profile creation with the `auto_join_community_on_signup` trigger: insert
the profile row, then run `auto_join_default_community` on it. -/
def insertProfileWithTrigger (db : DB) (p : ProfileRow) (newId : Nat) : DB :=
  auto_join_default_community
    { db with profiles := db.profiles ++ [p] } p newId

/-! ### Community chat view (`CommunityDetail.tsx`) -/

/-- `fetchPosts`: select from `community_posts` the rows with
`community_id = id`, ordered by `created_at` ascending. -/
def fetchPosts (db : DB) (cid : Nat) : List PostRow :=
  (db.community_posts.filter (fun p => p.community_id == cid)).mergeSort
    (fun a b => a.created_at ≤ b.created_at)

/-- The INSERT-notification handler of the realtime channel subscription:
`() => { fetchPosts(); }` — the displayed list is replaced wholesale by a
fresh fetch, ignoring both the notification payload and the previous list. -/
def onPostInsert (db : DB) (cid : Nat) (_displayed : List PostRow) :
    List PostRow :=
  fetchPosts db cid

/-! ### Client handlers as request traces

For the login-gating claim each handler of `Community.tsx`, `Connect.tsx`
and `CommunityDetail.tsx` is embedded as the list of database requests it
issues, in order.  `user = none` models the unauthenticated state; every
handler mirrors the early source `requireLogin` (or `!user`) return. -/

/-- One database request issued by a client handler. -/
inductive Request where
  | rpcGenerateInviteCode
  | selectCommunityByInviteCode (code : String)
  | insCommunity (row : CommunityRow)
  | insCommunityMember (community_id user_id : Nat)
  | insProject (row : ProjectRow)
  | insProjectMember (project_id user_id : Nat) (pt : ParticipationType)
  | insStartup (row : StartupRow)
  | insStartupMember (startup_id user_id : Nat) (role : Option String)
  | insPost (community_id user_id : Nat) (content : String)
deriving Repr, DecidableEq

/-- `handleCreate` (Community.tsx): requireLogin, then the invite-code RPC,
the community insert, and — only when that insert succeeded — the membership
insert for the creator. -/
def handleCreateTrace (db : DB) (user : Option Nat)
    (name desc : String) (isPublic : Bool) (code : Option String)
    (cid : Nat) : List Request :=
  match user with
  | none => []
  | some u =>
    let row : CommunityRow :=
      ⟨cid, name, some desc, isPublic, false, none, code, some u⟩
    Request.rpcGenerateInviteCode ::
    Request.insCommunity row ::
    (match insertCommunity db (some u) row with
     | .error _ => []
     | .ok _ => [Request.insCommunityMember cid u])

/-- `handleJoinByCode` (Community.tsx): requireLogin, then a select by
invite code, and — when a community was found — the membership insert. -/
def handleJoinByCodeTrace (db : DB) (user : Option Nat) (code : String) :
    List Request :=
  match user with
  | none => []
  | some u =>
    Request.selectCommunityByInviteCode code ::
    (match db.communities.find? (fun c => c.invite_code == some code) with
     | none => []
     | some c => [Request.insCommunityMember c.id u])

/-- `handleJoinPublic` (Community.tsx): requireLogin, then the membership
insert. -/
def handleJoinPublicTrace (user : Option Nat) (communityId : Nat) :
    List Request :=
  match user with
  | none => []
  | some u => [Request.insCommunityMember communityId u]

/-- `handleCreateProject` (Connect.tsx): requireLogin, then the project
insert with the parsed skills, and on success the host membership insert. -/
def handleCreateProjectTrace (db : DB) (user : Option Nat)
    (title desc skills : String) (pid : Nat) : List Request :=
  match user with
  | none => []
  | some u =>
    let row : ProjectRow :=
      ⟨pid, title, some desc, u, parseSkills skills, "open"⟩
    Request.insProject row ::
    (match insertProject db (some u) row with
     | .error _ => []
     | .ok _ => [Request.insProjectMember pid u ParticipationType.host])

/-- `handleCreateStartup` (Connect.tsx): requireLogin, then the startup
insert, and on success the founder membership insert. -/
def handleCreateStartupTrace (db : DB) (user : Option Nat)
    (name desc lookingFor : String) (sid : Nat) : List Request :=
  match user with
  | none => []
  | some u =>
    let row : StartupRow :=
      ⟨sid, name, some desc, u, some lookingFor, "active"⟩
    Request.insStartup row ::
    (match insertStartup db (some u) row with
     | .error _ => []
     | .ok _ => [Request.insStartupMember sid u (some "founder")])

/-- `handleJoinProject` (Connect.tsx): requireLogin, then the participant
membership insert. -/
def handleJoinProjectTrace (user : Option Nat) (projectId : Nat) :
    List Request :=
  match user with
  | none => []
  | some u => [Request.insProjectMember projectId u ParticipationType.participant]

/-- `handleJoinStartup` (Connect.tsx): requireLogin, then the member
insert with role "member". -/
def handleJoinStartupTrace (user : Option Nat) (startupId : Nat) :
    List Request :=
  match user with
  | none => []
  | some u => [Request.insStartupMember startupId u (some "member")]

/-- `sendMessage` (CommunityDetail.tsx):
`if (!newMessage.trim() || !user) return;` then the post insert. -/
def sendMessageTrace (user : Option Nat) (communityId : Nat)
    (newMessage : String) : List Request :=
  if (jsTrim newMessage.toList).isEmpty then
    []
  else
    match user with
    | none => []
    | some u => [Request.insPost communityId u newMessage]

/-! ### Creation flows over the database state

The three creation handlers, run against the database: the entity insert,
then the creator-membership insert.  The source `await`s the membership
insert without reading its result, so a failed membership insert leaves the
flow "successful" with the database as it was after the entity insert. -/

/-- Keep the successful state, fall back to `fb` on error (a discarded
`await supabase...insert(...)` result). -/
def orKeep (r : Except String DB) (fb : DB) : DB :=
  match r with
  | .ok db => db
  | .error _ => fb

/-- `handleCreate` (Community.tsx) applied to the database: insert the
community (`is_public`, `creator_id`, `invite_code` from the form and RPC),
then auto-join the creator. -/
def handleCreateFlow (db : DB) (user : Option Nat) (name desc : String)
    (isPublic : Bool) (code : Option String) (cid mid : Nat) :
    Except String DB :=
  match user with
  | none => .error "login required"
  | some u =>
    match insertCommunity db (some u)
        ⟨cid, name, some desc, isPublic, false, none, code, some u⟩ with
    | .error e => .error e
    | .ok db1 =>
      .ok (orKeep (insertCommunityMember db1 (some u) ⟨mid, cid, u⟩) db1)

/-- `handleCreateProject` (Connect.tsx) applied to the database: insert the
project with `skills_required` parsed from the form, then insert the host
membership. -/
def handleCreateProjectFlow (db : DB) (user : Option Nat)
    (title desc skills : String) (pid mid : Nat) : Except String DB :=
  match user with
  | none => .error "login required"
  | some u =>
    match insertProject db (some u)
        ⟨pid, title, some desc, u, parseSkills skills, "open"⟩ with
    | .error e => .error e
    | .ok db1 =>
      .ok (orKeep
        (insertProjectMember db1 (some u) ⟨mid, pid, u, ParticipationType.host⟩)
        db1)

/-- `handleCreateStartup` (Connect.tsx) applied to the database: insert the
startup, then insert the founder membership with role "founder". -/
def handleCreateStartupFlow (db : DB) (user : Option Nat)
    (name desc lookingFor : String) (sid mid : Nat) : Except String DB :=
  match user with
  | none => .error "login required"
  | some u =>
    match insertStartup db (some u)
        ⟨sid, name, some desc, u, some lookingFor, "active"⟩ with
    | .error e => .error e
    | .ok db1 =>
      .ok (orKeep
        (insertStartupMember db1 (some u) ⟨mid, sid, u, some "founder"⟩)
        db1)

/-! ### Pair-uniqueness invariants of the membership tables -/

/-- No two rows of a `community_members` table share `(community_id, user_id)`. -/
def cmPairUnique (ms : List CommunityMemberRow) : Prop :=
  ms.Pairwise
    (fun a b => ¬(a.community_id = b.community_id ∧ a.user_id = b.user_id))

/-- No two rows of a `project_members` table share `(project_id, user_id)`. -/
def pmPairUnique (ms : List ProjectMemberRow) : Prop :=
  ms.Pairwise (fun a b => ¬(a.project_id = b.project_id ∧ a.user_id = b.user_id))

/-- No two rows of a `startup_members` table share `(startup_id, user_id)`. -/
def smPairUnique (ms : List StartupMemberRow) : Prop :=
  ms.Pairwise (fun a b => ¬(a.startup_id = b.startup_id ∧ a.user_id = b.user_id))

theorem insertCommunityMember_dup_error (db : DB) (uid : Option Nat)
    (row : CommunityMemberRow)
    (h : ∃ m ∈ db.community_members,
        m.community_id = row.community_id ∧ m.user_id = row.user_id) :
    ∃ e, insertCommunityMember db uid row = Except.error e := by
  unfold insertCommunityMember
  split
  · exact ⟨_, rfl⟩
  · rw [if_pos]
    · exact ⟨_, rfl⟩
    · obtain ⟨m, hm, h1, h2⟩ := h
      exact List.any_eq_true.mpr ⟨m, hm, by simp [h1, h2]⟩

theorem insertCommunityMember_preserves_unique (db : DB) (uid : Option Nat)
    (row : CommunityMemberRow) (db' : DB)
    (hu : cmPairUnique db.community_members)
    (h : insertCommunityMember db uid row = Except.ok db') :
    cmPairUnique db'.community_members := by
  unfold insertCommunityMember at h
  split at h
  · cases h
  · split at h
    · cases h
    · split at h
      · cases h
      · rename_i hdup _
        cases h
        refine List.pairwise_append.mpr ⟨hu, by simp, ?_⟩
        intro a ha b hb
        simp only [List.mem_singleton] at hb
        subst hb
        rintro ⟨h1, h2⟩
        exact hdup (List.any_eq_true.mpr ⟨a, ha, by simp [h1, h2]⟩)

theorem insertProjectMember_dup_error (db : DB) (uid : Option Nat)
    (row : ProjectMemberRow)
    (h : ∃ m ∈ db.project_members,
        m.project_id = row.project_id ∧ m.user_id = row.user_id) :
    ∃ e, insertProjectMember db uid row = Except.error e := by
  unfold insertProjectMember
  split
  · exact ⟨_, rfl⟩
  · rw [if_pos]
    · exact ⟨_, rfl⟩
    · obtain ⟨m, hm, h1, h2⟩ := h
      exact List.any_eq_true.mpr ⟨m, hm, by simp [h1, h2]⟩

theorem insertProjectMember_preserves_unique (db : DB) (uid : Option Nat)
    (row : ProjectMemberRow) (db' : DB)
    (hu : pmPairUnique db.project_members)
    (h : insertProjectMember db uid row = Except.ok db') :
    pmPairUnique db'.project_members := by
  unfold insertProjectMember at h
  split at h
  · cases h
  · split at h
    · cases h
    · split at h
      · cases h
      · rename_i hdup _
        cases h
        refine List.pairwise_append.mpr ⟨hu, by simp, ?_⟩
        intro a ha b hb
        simp only [List.mem_singleton] at hb
        subst hb
        rintro ⟨h1, h2⟩
        exact hdup (List.any_eq_true.mpr ⟨a, ha, by simp [h1, h2]⟩)

theorem insertStartupMember_dup_error (db : DB) (uid : Option Nat)
    (row : StartupMemberRow)
    (h : ∃ m ∈ db.startup_members,
        m.startup_id = row.startup_id ∧ m.user_id = row.user_id) :
    ∃ e, insertStartupMember db uid row = Except.error e := by
  unfold insertStartupMember
  split
  · exact ⟨_, rfl⟩
  · rw [if_pos]
    · exact ⟨_, rfl⟩
    · obtain ⟨m, hm, h1, h2⟩ := h
      exact List.any_eq_true.mpr ⟨m, hm, by simp [h1, h2]⟩

theorem insertStartupMember_preserves_unique (db : DB) (uid : Option Nat)
    (row : StartupMemberRow) (db' : DB)
    (hu : smPairUnique db.startup_members)
    (h : insertStartupMember db uid row = Except.ok db') :
    smPairUnique db'.startup_members := by
  unfold insertStartupMember at h
  split at h
  · cases h
  · split at h
    · cases h
    · split at h
      · cases h
      · rename_i hdup _
        cases h
        refine List.pairwise_append.mpr ⟨hu, by simp, ?_⟩
        intro a ha b hb
        simp only [List.mem_singleton] at hb
        subst hb
        rintro ⟨h1, h2⟩
        exact hdup (List.any_eq_true.mpr ⟨a, ha, by simp [h1, h2]⟩)

/-- Claim C1: in each membership table (`community_members`,
`project_members`, `startup_members`) the pair (entity id, user id) is
unique: inserting a membership whose pair is already present fails with an
error (so the table is unchanged — no new state is produced), and a
successful insert preserves pairwise uniqueness of the pairs, so no
duplicate membership row is ever created. -/
theorem C1_membership_pair_unique (db : DB) (uid : Option Nat) :
    (∀ row : CommunityMemberRow,
      (∃ m ∈ db.community_members,
          m.community_id = row.community_id ∧ m.user_id = row.user_id) →
      ∃ e, insertCommunityMember db uid row = Except.error e) ∧
    (∀ row db', cmPairUnique db.community_members →
      insertCommunityMember db uid row = Except.ok db' →
      cmPairUnique db'.community_members) ∧
    (∀ row : ProjectMemberRow,
      (∃ m ∈ db.project_members,
          m.project_id = row.project_id ∧ m.user_id = row.user_id) →
      ∃ e, insertProjectMember db uid row = Except.error e) ∧
    (∀ row db', pmPairUnique db.project_members →
      insertProjectMember db uid row = Except.ok db' →
      pmPairUnique db'.project_members) ∧
    (∀ row : StartupMemberRow,
      (∃ m ∈ db.startup_members,
          m.startup_id = row.startup_id ∧ m.user_id = row.user_id) →
      ∃ e, insertStartupMember db uid row = Except.error e) ∧
    (∀ row db', smPairUnique db.startup_members →
      insertStartupMember db uid row = Except.ok db' →
      smPairUnique db'.startup_members) :=
  ⟨fun row h => insertCommunityMember_dup_error db uid row h,
   fun row db' hu h => insertCommunityMember_preserves_unique db uid row db' hu h,
   fun row h => insertProjectMember_dup_error db uid row h,
   fun row db' hu h => insertProjectMember_preserves_unique db uid row db' hu h,
   fun row h => insertStartupMember_dup_error db uid row h,
   fun row db' hu h => insertStartupMember_preserves_unique db uid row db' hu h⟩

/-- A small concrete database: user 3 is already a member of community 10,
project 20 and startup 30. -/
def dbW1 : DB :=
  { DB.empty with
    community_members := [⟨1, 10, 3⟩],
    project_members := [⟨2, 20, 3, ParticipationType.participant⟩],
    startup_members := [⟨3, 30, 3, some "member"⟩] }

/-- Witness for C1 at a concrete database: user 3 joining community 10 /
project 20 / startup 30 again fails with an error, and a successful insert
of the fresh pair (10, 5) / (20, 5) / (30, 5) keeps the pairs unique. -/
theorem C1_membership_pair_unique_witness :
    (∃ e, insertCommunityMember dbW1 (some 3) ⟨4, 10, 3⟩ = Except.error e) ∧
    cmPairUnique
      ({ dbW1 with community_members :=
          dbW1.community_members ++ [⟨4, 10, 5⟩] } : DB).community_members ∧
    (∃ e, insertProjectMember dbW1 (some 3)
        ⟨4, 20, 3, ParticipationType.participant⟩ = Except.error e) ∧
    pmPairUnique
      ({ dbW1 with project_members :=
          dbW1.project_members ++
            [⟨4, 20, 5, ParticipationType.participant⟩] } : DB).project_members ∧
    (∃ e, insertStartupMember dbW1 (some 3) ⟨4, 30, 3, some "member"⟩ =
        Except.error e) ∧
    smPairUnique
      ({ dbW1 with startup_members :=
          dbW1.startup_members ++ [⟨4, 30, 5, some "member"⟩] } : DB).startup_members :=
  ⟨(C1_membership_pair_unique dbW1 (some 3)).1 ⟨4, 10, 3⟩
      ⟨⟨1, 10, 3⟩, by decide, by decide, by decide⟩,
   (C1_membership_pair_unique dbW1 (some 5)).2.1 ⟨4, 10, 5⟩ _
      (by unfold cmPairUnique; decide) rfl,
   (C1_membership_pair_unique dbW1 (some 3)).2.2.1
      ⟨4, 20, 3, ParticipationType.participant⟩
      ⟨⟨2, 20, 3, ParticipationType.participant⟩, by decide, by decide, by decide⟩,
   (C1_membership_pair_unique dbW1 (some 5)).2.2.2.1
      ⟨4, 20, 5, ParticipationType.participant⟩ _ (by unfold pmPairUnique; decide) rfl,
   (C1_membership_pair_unique dbW1 (some 3)).2.2.2.2.1 ⟨4, 30, 3, some "member"⟩
      ⟨⟨3, 30, 3, some "member"⟩, by decide, by decide, by decide⟩,
   (C1_membership_pair_unique dbW1 (some 5)).2.2.2.2.2 ⟨4, 30, 5, some "member"⟩
      _ (by unfold smPairUnique; decide) rfl⟩

/-- Claim C2: every insert into an owned-entity table (`communities`,
`projects`, `startups`) or a membership table (`community_members`,
`project_members`, `startup_members`) is accepted only when its owner column
(`creator_id` / `host_id` / `founder_id`) or `user_id` column equals the
id of the authenticated actor, and an insert naming any other user (or issued by
an unauthenticated actor) is rejected. -/
theorem C2_insert_requires_actor (db : DB) (uid : Option Nat) :
    (∀ (row : CommunityRow) db', insertCommunity db uid row = Except.ok db' →
      ∃ u, uid = some u ∧ row.creator_id = some u) ∧
    (∀ row : CommunityRow, (∀ u, ¬(uid = some u ∧ row.creator_id = some u)) →
      ∃ e, insertCommunity db uid row = Except.error e) ∧
    (∀ (row : CommunityMemberRow) db',
      insertCommunityMember db uid row = Except.ok db' →
      uid = some row.user_id) ∧
    (∀ row : CommunityMemberRow, uid ≠ some row.user_id →
      ∃ e, insertCommunityMember db uid row = Except.error e) ∧
    (∀ (row : ProjectRow) db', insertProject db uid row = Except.ok db' →
      uid = some row.host_id) ∧
    (∀ row : ProjectRow, uid ≠ some row.host_id →
      ∃ e, insertProject db uid row = Except.error e) ∧
    (∀ (row : ProjectMemberRow) db',
      insertProjectMember db uid row = Except.ok db' →
      uid = some row.user_id) ∧
    (∀ row : ProjectMemberRow, uid ≠ some row.user_id →
      ∃ e, insertProjectMember db uid row = Except.error e) ∧
    (∀ (row : StartupRow) db', insertStartup db uid row = Except.ok db' →
      uid = some row.founder_id) ∧
    (∀ row : StartupRow, uid ≠ some row.founder_id →
      ∃ e, insertStartup db uid row = Except.error e) ∧
    (∀ (row : StartupMemberRow) db',
      insertStartupMember db uid row = Except.ok db' →
      uid = some row.user_id) ∧
    (∀ row : StartupMemberRow, uid ≠ some row.user_id →
      ∃ e, insertStartupMember db uid row = Except.error e) := by
  refine ⟨?_, ?_, ?_, ?_, ?_, ?_, ?_, ?_, ?_, ?_, ?_, ?_⟩
  · intro row db' h
    unfold insertCommunity at h
    split at h
    · cases h
    · split at h
      · cases h
      · split at h
        · cases h
        · rename_i hrls
          simp only [Bool.not_eq_true] at hrls
          rcases uid with _ | u
          · simp at hrls
          · cases hcr : row.creator_id with
            | none => rw [hcr] at hrls; simp at hrls
            | some cr =>
              rw [hcr] at hrls
              simp only [Bool.not_eq_false', beq_iff_eq] at hrls
              exact ⟨u, rfl, by rw [hrls]⟩
  · intro row h
    unfold insertCommunity
    split
    · exact ⟨_, rfl⟩
    · split
      · exact ⟨_, rfl⟩
      · rw [if_pos]
        · exact ⟨_, rfl⟩
        · rcases uid with _ | u
          · simp
          · cases hcr : row.creator_id with
            | none => simp
            | some cr =>
              simp only [Bool.not_eq_true', beq_eq_false_iff_ne, ne_eq]
              intro hfalse
              exact h u ⟨rfl, by rw [hcr, hfalse]⟩
  · intro row db' h
    unfold insertCommunityMember at h
    split at h
    · cases h
    · split at h
      · cases h
      · split at h
        · cases h
        · rename_i hrls
          simp only [Bool.not_eq_true, Bool.not_eq_false', beq_iff_eq] at hrls
          exact hrls
  · intro row h
    unfold insertCommunityMember
    split
    · exact ⟨_, rfl⟩
    · split
      · exact ⟨_, rfl⟩
      · rw [if_pos]
        · exact ⟨_, rfl⟩
        · simp only [Bool.not_eq_true', beq_eq_false_iff_ne, ne_eq]
          exact h
  · intro row db' h
    unfold insertProject at h
    split at h
    · cases h
    · split at h
      · cases h
      · rename_i hrls
        simp only [Bool.not_eq_true, Bool.not_eq_false', beq_iff_eq] at hrls
        exact hrls
  · intro row h
    unfold insertProject
    split
    · exact ⟨_, rfl⟩
    · rw [if_pos]
      · exact ⟨_, rfl⟩
      · simp only [Bool.not_eq_true', beq_eq_false_iff_ne, ne_eq]
        exact h
  · intro row db' h
    unfold insertProjectMember at h
    split at h
    · cases h
    · split at h
      · cases h
      · split at h
        · cases h
        · rename_i hrls
          simp only [Bool.not_eq_true, Bool.not_eq_false', beq_iff_eq] at hrls
          exact hrls
  · intro row h
    unfold insertProjectMember
    split
    · exact ⟨_, rfl⟩
    · split
      · exact ⟨_, rfl⟩
      · rw [if_pos]
        · exact ⟨_, rfl⟩
        · simp only [Bool.not_eq_true', beq_eq_false_iff_ne, ne_eq]
          exact h
  · intro row db' h
    unfold insertStartup at h
    split at h
    · cases h
    · split at h
      · cases h
      · rename_i hrls
        simp only [Bool.not_eq_true, Bool.not_eq_false', beq_iff_eq] at hrls
        exact hrls
  · intro row h
    unfold insertStartup
    split
    · exact ⟨_, rfl⟩
    · rw [if_pos]
      · exact ⟨_, rfl⟩
      · simp only [Bool.not_eq_true', beq_eq_false_iff_ne, ne_eq]
        exact h
  · intro row db' h
    unfold insertStartupMember at h
    split at h
    · cases h
    · split at h
      · cases h
      · split at h
        · cases h
        · rename_i hrls
          simp only [Bool.not_eq_true, Bool.not_eq_false', beq_iff_eq] at hrls
          exact hrls
  · intro row h
    unfold insertStartupMember
    split
    · exact ⟨_, rfl⟩
    · split
      · exact ⟨_, rfl⟩
      · rw [if_pos]
        · exact ⟨_, rfl⟩
        · simp only [Bool.not_eq_true', beq_eq_false_iff_ne, ne_eq]
          exact h

/-- Witness for C2 at concrete inputs: actor 1 successfully creates a
community / project / startup owned by 1 and joins as user 1, and each of
the six tables rejects the corresponding insert naming user 2 when actor 1
is authenticated. -/
theorem C2_insert_requires_actor_witness :
    (∃ u, (some 1 : Option Nat) = some u ∧
      (⟨7, "c", none, true, false, none, none, some 1⟩ : CommunityRow).creator_id
        = some u) ∧
    (∃ e, insertCommunity DB.empty (some 1)
        ⟨7, "c", none, true, false, none, none, some 2⟩ = Except.error e) ∧
    (some 1 : Option Nat) =
      some (⟨8, 7, 1⟩ : CommunityMemberRow).user_id ∧
    (∃ e, insertCommunityMember DB.empty (some 1) ⟨8, 7, 2⟩ =
        Except.error e) ∧
    (some 1 : Option Nat) =
      some (⟨9, "p", none, 1, [], "open"⟩ : ProjectRow).host_id ∧
    (∃ e, insertProject DB.empty (some 1) ⟨9, "p", none, 2, [], "open"⟩ =
        Except.error e) ∧
    (some 1 : Option Nat) =
      some (⟨10, 9, 1, ParticipationType.host⟩ : ProjectMemberRow).user_id ∧
    (∃ e, insertProjectMember DB.empty (some 1)
        ⟨10, 9, 2, ParticipationType.host⟩ = Except.error e) ∧
    (some 1 : Option Nat) =
      some (⟨11, "s", none, 1, none, "active"⟩ : StartupRow).founder_id ∧
    (∃ e, insertStartup DB.empty (some 1) ⟨11, "s", none, 2, none, "active"⟩ =
        Except.error e) ∧
    (some 1 : Option Nat) =
      some (⟨12, 11, 1, some "founder"⟩ : StartupMemberRow).user_id ∧
    (∃ e, insertStartupMember DB.empty (some 1) ⟨12, 11, 2, some "founder"⟩ =
        Except.error e) :=
  ⟨(C2_insert_requires_actor DB.empty (some 1)).1
      ⟨7, "c", none, true, false, none, none, some 1⟩ _ rfl,
   (C2_insert_requires_actor DB.empty (some 1)).2.1
      ⟨7, "c", none, true, false, none, none, some 2⟩
      (by rintro u ⟨h1, h2⟩; simp_all; omega),
   (C2_insert_requires_actor DB.empty (some 1)).2.2.1 ⟨8, 7, 1⟩ _ rfl,
   (C2_insert_requires_actor DB.empty (some 1)).2.2.2.1 ⟨8, 7, 2⟩ (by decide),
   (C2_insert_requires_actor DB.empty (some 1)).2.2.2.2.1
      ⟨9, "p", none, 1, [], "open"⟩ _ rfl,
   (C2_insert_requires_actor DB.empty (some 1)).2.2.2.2.2.1
      ⟨9, "p", none, 2, [], "open"⟩ (by decide),
   (C2_insert_requires_actor DB.empty (some 1)).2.2.2.2.2.2.1
      ⟨10, 9, 1, ParticipationType.host⟩ _ rfl,
   (C2_insert_requires_actor DB.empty (some 1)).2.2.2.2.2.2.2.1
      ⟨10, 9, 2, ParticipationType.host⟩ (by decide),
   (C2_insert_requires_actor DB.empty (some 1)).2.2.2.2.2.2.2.2.1
      ⟨11, "s", none, 1, none, "active"⟩ _ rfl,
   (C2_insert_requires_actor DB.empty (some 1)).2.2.2.2.2.2.2.2.2.1
      ⟨11, "s", none, 2, none, "active"⟩ (by decide),
   (C2_insert_requires_actor DB.empty (some 1)).2.2.2.2.2.2.2.2.2.2.1
      ⟨12, 11, 1, some "founder"⟩ _ rfl,
   (C2_insert_requires_actor DB.empty (some 1)).2.2.2.2.2.2.2.2.2.2.2
      ⟨12, 11, 2, some "founder"⟩ (by decide)⟩

/-- Concrete database for the communities SELECT policy: community 1 is
private; user 7 is not a member of community 1, but holds a membership row
for community 5 whose row id (5) happens to equal its `community_id` (5). -/
def db3 : DB :=
  { DB.empty with
    communities := [⟨1, "Secret", none, false, false, none, none, some 9⟩,
                    ⟨5, "Open", none, true, false, none, none, some 9⟩],
    community_members := [⟨5, 5, 7⟩] }

/-- Concrete database: user 7 IS a member of private community 1, through a
membership row whose id (9) differs from its `community_id` (1). -/
def db3b : DB :=
  { DB.empty with
    communities := [⟨1, "Secret", none, false, false, none, none, some 9⟩],
    community_members := [⟨9, 1, 7⟩] }

/-- Claim C3 evaluated at its failing input.  The policy subquery
`WHERE community_id = id AND user_id = auth.uid()` compares
`community_members.community_id` with `community_members.id` (the
own primary key of the membership row), not with `communities.id`.  So: in `db3`
actor 7 has no membership row for private community 1, yet the SELECT
returns community 1 to actor 7; and in `db3b` actor 7 is a genuine member
of private community 1, yet the SELECT returns nothing. -/
theorem C3_private_visibility_policy_eval :
    (db3.community_members.all
        (fun m => !(m.community_id == 1 && m.user_id == 7))) = true ∧
    ((selectCommunities db3 (some 7)).any
        (fun c => c.id == 1 && !c.is_public)) = true ∧
    (db3b.community_members.any
        (fun m => m.community_id == 1 && m.user_id == 7)) = true ∧
    selectCommunities db3b (some 7) = [] := by
  refine ⟨by decide, by decide, by decide, by decide⟩

theorem genInviteCodeLoop_fresh (db : DB) (cands : Nat → String) :
    ∀ (fuel i : Nat) (c : String),
      genInviteCodeLoop db cands fuel i = some c →
      ∀ row ∈ db.communities, row.invite_code ≠ some c := by
  intro fuel
  induction fuel with
  | zero => intro i c h; cases h
  | succ f ih =>
    intro i c h row hrow
    unfold genInviteCodeLoop at h
    split at h
    · exact ih (i + 1) c h row hrow
    · rename_i hnotin
      cases h
      intro hc
      exact hnotin (List.any_eq_true.mpr ⟨row, hrow, by simp [hc]⟩)

/-- Claim C4: `generate_invite_code` only returns codes that no
`communities` row currently stores; in particular, once a generated code has
been stored, a later call (with any randomness) cannot return it again, so
codes generated across repeated calls are distinct; and the
`invite_code TEXT UNIQUE` constraint rejects any insert duplicating a
stored non-null code. -/
theorem C4_invite_code_unique (db db2 : DB) (cands cands2 : Nat → String)
    (fuel fuel2 : Nat) :
    (∀ c, generate_invite_code db cands fuel = some c →
      ∀ row ∈ db.communities, row.invite_code ≠ some c) ∧
    (∀ c c2, generate_invite_code db cands fuel = some c →
      (∃ row ∈ db2.communities, row.invite_code = some c) →
      generate_invite_code db2 cands2 fuel2 = some c2 → c2 ≠ c) ∧
    (∀ (row : CommunityRow) (x : String) (uid : Option Nat),
      row.invite_code = some x →
      (∃ c2 ∈ db.communities, c2.invite_code = some x) →
      ∃ e, insertCommunity db uid row = Except.error e) := by
  refine ⟨?_, ?_, ?_⟩
  · intro c h
    exact genInviteCodeLoop_fresh db cands fuel 0 c h
  · intro c c2 _ hstored h2 heq
    obtain ⟨row, hrow, hcode⟩ := hstored
    exact genInviteCodeLoop_fresh db2 cands2 fuel2 0 c2 h2 row hrow
      (hcode.trans (congrArg some heq.symm))
  · intro row x uid hx hdup
    unfold insertCommunity
    split
    · exact ⟨_, rfl⟩
    · rw [if_pos]
      · exact ⟨_, rfl⟩
      · obtain ⟨c2, hc2, hcode⟩ := hdup
        rw [Bool.and_eq_true]
        exact ⟨by simp [hx], List.any_eq_true.mpr ⟨c2, hc2, by simp [hcode, hx]⟩⟩

/-- Database holding one community whose invite code is "AAAA". -/
def db4 : DB :=
  { DB.empty with
    communities := [⟨1, "c", none, true, false, none, some "AAAA", some 9⟩] }

/-- `db4` after a second community stored the code "BBBB". -/
def db4b : DB :=
  { DB.empty with
    communities := [⟨1, "c", none, true, false, none, some "AAAA", some 9⟩,
                    ⟨2, "d", none, true, false, none, some "BBBB", some 9⟩] }

/-- Candidate stream whose first draw collides with the stored code "AAAA". -/
def cands4 : Nat → String := fun i => if i == 0 then "AAAA" else "BBBB"

/-- Witness for C4: on `db4` the generator skips the stored "AAAA" and
returns "BBBB"; once "BBBB" is stored (`db4b`) a second call returns a code
("CCCC") different from "BBBB"; and inserting another community with the
already-stored invite code "AAAA" into `db4` fails. -/
theorem C4_invite_code_unique_witness :
    (⟨1, "c", none, true, false, none, some "AAAA", some 9⟩ : CommunityRow).invite_code
      ≠ some "BBBB" ∧
    "CCCC" ≠ "BBBB" ∧
    (∃ e, insertCommunity db4 (some 9)
        ⟨3, "e", none, true, false, none, some "AAAA", some 9⟩ =
          Except.error e) :=
  ⟨(C4_invite_code_unique db4 db4b cands4 (fun _ => "CCCC") 3 3).1 "BBBB" rfl
      ⟨1, "c", none, true, false, none, some "AAAA", some 9⟩ (by decide),
   (C4_invite_code_unique db4 db4b cands4 (fun _ => "CCCC") 3 3).2.1
      "BBBB" "CCCC" rfl
      ⟨⟨2, "d", none, true, false, none, some "BBBB", some 9⟩, by decide, rfl⟩
      rfl,
   (C4_invite_code_unique db4 db4b cands4 (fun _ => "CCCC") 3 3).2.2
      ⟨3, "e", none, true, false, none, some "AAAA", some 9⟩ "AAAA" (some 9)
      rfl
      ⟨⟨1, "c", none, true, false, none, some "AAAA", some 9⟩, by decide, rfl⟩⟩

end Twindle

namespace Twindle

/-- One seeded default community with branch category "CS". -/
def db5 : DB :=
  { DB.empty with
    communities := [⟨1, "CS Community", none, true, true, some "CS", none, none⟩] }

/-- A new profile whose branch text is the single character "%". -/
def prof5 : ProfileRow := ⟨7, "U", "u at x", "%", "C"⟩

/-- Counterexample to claim C5 as stated: the branch "%" of `prof5` neither
equals the category "CS" of the only default community of `db5` nor is
contained in it case-insensitively, so the claim requires that no
membership row be inserted at profile creation — but the trigger
interpolates the branch unescaped into an ILIKE pattern, "%" acts as a
wildcard, the community matches, and a membership row IS inserted. -/
theorem C5_counterexample_wildcard_branch :
    (db5.communities.all (fun c =>
        !(c.is_default &&
          (match c.branch_category with
           | none => false
           | some cat => cat == "%" || containsCI cat "%")))) = true ∧
    (insertProfileWithTrigger db5 prof5 10).community_members ≠
      db5.community_members := by
  refine ⟨by decide, by decide⟩

/-- Claim C5 (amended): the criterion of the trigger is `branch_category =
branch` or `branch_category ILIKE '%' || branch || '%'` with the branch
text acting as a LIKE pattern (for branch texts without the wildcard
characters `%` and `_` this is exactly case-insensitive containment).  If
some default community matches, profile creation inserts a membership row
joining the user to the first such community; if none matches, the
membership table is unchanged. -/
theorem C5_auto_join_default_community (db : DB) (p : ProfileRow)
    (newId : Nat) :
    (∀ c, db.communities.find? (branchMatches p.branch) = some c →
      (db.community_members.any (fun m => m.id == newId ||
          (m.community_id == c.id && m.user_id == p.id))) = false →
      (insertProfileWithTrigger db p newId).community_members =
        db.community_members ++ [⟨newId, c.id, p.id⟩] ∧
      c.is_default = true ∧
      ∃ cat, c.branch_category = some cat ∧
        (cat = p.branch ∨ ilike cat ("%" ++ p.branch ++ "%") = true)) ∧
    ((∀ c ∈ db.communities, branchMatches p.branch c = false) →
      (insertProfileWithTrigger db p newId).community_members =
        db.community_members) := by
  constructor
  · intro c hfind hfresh
    have hmatch : branchMatches p.branch c = true :=
      List.find?_some hfind
    refine ⟨?_, ?_, ?_⟩
    · unfold insertProfileWithTrigger auto_join_default_community
      simp only [hfind, hfresh]
      rfl
    · unfold branchMatches at hmatch
      exact (Bool.and_eq_true _ _).mp hmatch |>.1
    · unfold branchMatches at hmatch
      have h2 := ((Bool.and_eq_true _ _).mp hmatch).2
      cases hcat : c.branch_category with
      | none => rw [hcat] at h2; cases h2
      | some cat =>
        rw [hcat] at h2
        rcases Bool.or_eq_true_iff.mp h2 with h3 | h3
        · exact ⟨cat, rfl, Or.inl (by simpa using h3)⟩
        · exact ⟨cat, rfl, Or.inr h3⟩
  · intro hnone
    have hfind0 : List.find? (branchMatches p.branch) db.communities = none :=
      List.find?_eq_none.mpr (fun c hc => by simp [hnone c hc])
    unfold insertProfileWithTrigger auto_join_default_community
    simp only [hfind0]

/-- Database with one default community of category "CS" and one
non-default community. -/
def db5w : DB :=
  { DB.empty with
    communities := [⟨2, "Misc", none, true, false, none, none, some 9⟩,
                    ⟨1, "CS Community", none, true, true, some "CS", none, none⟩] }

/-- Witness for the amended C5: the profile with branch "cs" (contained
case-insensitively in the category "CS") is auto-joined to the default
community 1 at creation, and a profile with branch "zz" (matching nothing)
leaves the membership table unchanged. -/
theorem C5_auto_join_default_community_witness :
    ((insertProfileWithTrigger db5w ⟨7, "U", "u at x", "cs", "C"⟩ 10).community_members
        = db5w.community_members ++ [⟨10, 1, 7⟩] ∧
      (⟨1, "CS Community", none, true, true, some "CS", none, none⟩
          : CommunityRow).is_default = true ∧
      ∃ cat, (⟨1, "CS Community", none, true, true, some "CS", none, none⟩
          : CommunityRow).branch_category = some cat ∧
        (cat = "cs" ∨ ilike cat ("%" ++ "cs" ++ "%") = true)) ∧
    (insertProfileWithTrigger db5w ⟨8, "V", "v at x", "zz", "C"⟩ 11).community_members
        = db5w.community_members :=
  ⟨(C5_auto_join_default_community db5w ⟨7, "U", "u at x", "cs", "C"⟩ 10).1
      ⟨1, "CS Community", none, true, true, some "CS", none, none⟩
      (by decide) (by decide),
   (C5_auto_join_default_community db5w ⟨8, "V", "v at x", "zz", "C"⟩ 11).2
      (by decide)⟩

end Twindle

namespace Twindle

/-- Claim C6: the community chat view fetches exactly the posts of the one
community `cid` (a permutation of the filter of the posts table), sorted by
creation timestamp in ascending order, and the insert-notification handler
replaces the displayed list wholesale with a fresh full fetch, ignoring the
previously displayed list entirely. -/
theorem C6_chat_view_fetch (db : DB) (cid : Nat) (displayed : List PostRow) :
    (fetchPosts db cid).Pairwise (fun a b => a.created_at ≤ b.created_at) ∧
    (fetchPosts db cid).Perm
      (db.community_posts.filter (fun p => p.community_id == cid)) ∧
    onPostInsert db cid displayed = fetchPosts db cid := by
  refine ⟨?_, ?_, rfl⟩
  · unfold fetchPosts
    refine List.Pairwise.imp ?_
      (List.sorted_mergeSort ?_ ?_
        (db.community_posts.filter (fun p => p.community_id == cid)))
    · intro a b hab
      simpa using hab
    · intro a b c hab hbc
      simp only [decide_eq_true_eq] at *
      omega
    · intro a b
      simpa using Nat.le_total a.created_at b.created_at
  · unfold fetchPosts
    exact List.mergeSort_perm _ _

/-- Claim C7: every state-mutating UI handler (create community, join by
code, join public community, create project, create startup, join project,
join startup, send message) issues no database request at all when no user
is authenticated: the login-required check returns before any select,
insert or RPC call. -/
theorem C7_login_required_blocks_requests (db : DB) :
    (∀ (name desc : String) (isPublic : Bool) (code : Option String)
        (cid : Nat),
      handleCreateTrace db none name desc isPublic code cid = []) ∧
    (∀ code : String, handleJoinByCodeTrace db none code = []) ∧
    (∀ communityId : Nat, handleJoinPublicTrace none communityId = []) ∧
    (∀ (title desc skills : String) (pid : Nat),
      handleCreateProjectTrace db none title desc skills pid = []) ∧
    (∀ (name desc lookingFor : String) (sid : Nat),
      handleCreateStartupTrace db none name desc lookingFor sid = []) ∧
    (∀ projectId : Nat, handleJoinProjectTrace none projectId = []) ∧
    (∀ startupId : Nat, handleJoinStartupTrace none startupId = []) ∧
    (∀ (communityId : Nat) (msg : String),
      sendMessageTrace none communityId msg = []) := by
  refine ⟨fun _ _ _ _ _ => rfl, fun _ => rfl, fun _ => rfl,
          fun _ _ _ _ => rfl, fun _ _ _ _ => rfl, fun _ => rfl,
          fun _ => rfl, fun communityId msg => ?_⟩
  unfold sendMessageTrace
  split <;> rfl

/-- Claim C8: the SELECT policy on `community_members` compares the
`community_id` of the subquery row with itself, so any actor who is a member of
at least one community satisfies the policy for every `community_members`
row, whatever community that row belongs to: the SELECT returns the entire
table to such an actor. -/
theorem C8_member_select_policy_overbroad (db : DB) (u : Nat)
    (h : ∃ cm ∈ db.community_members, cm.user_id = u) :
    (∀ row ∈ db.community_members,
      communityMembersSelectPolicy db (some u) row = true) ∧
    selectCommunityMembers db (some u) = db.community_members := by
  obtain ⟨cm, hcm, hu⟩ := h
  have hpol : ∀ row ∈ db.community_members,
      communityMembersSelectPolicy db (some u) row = true := by
    intro row _
    unfold communityMembersSelectPolicy
    exact List.any_eq_true.mpr ⟨cm, hcm, by simp [hu]⟩
  exact ⟨hpol, List.filter_eq_self.mpr hpol⟩

/-- Database for the C8 witness: user 7 is a member only of community 1,
while community 2 has the members 8 and 9. -/
def db8 : DB :=
  { DB.empty with
    communities := [⟨1, "a", none, true, false, none, none, some 7⟩,
                    ⟨2, "b", none, true, false, none, none, some 8⟩],
    community_members := [⟨1, 1, 7⟩, ⟨2, 2, 8⟩, ⟨3, 2, 9⟩] }

/-- Witness for C8: user 7, a member of community 1 only, passes the policy
for every membership row of `db8` — including the rows of community 2 — and
the SELECT returns the whole table. -/
theorem C8_member_select_policy_overbroad_witness :
    (∀ row ∈ db8.community_members,
      communityMembersSelectPolicy db8 (some 7) row = true) ∧
    selectCommunityMembers db8 (some 7) = db8.community_members :=
  C8_member_select_policy_overbroad db8 7 ⟨⟨1, 1, 7⟩, by decide, rfl⟩

end Twindle

namespace Twindle

theorem insertCommunityMember_ok_of_checks (db : DB) (u : Nat)
    (row : CommunityMemberRow)
    (h1 : (db.community_members.any (fun m => m.id == row.id)) = false)
    (h2 : (db.community_members.any
        (fun m => m.community_id == row.community_id &&
                  m.user_id == row.user_id)) = false)
    (h3 : row.user_id = u) :
    insertCommunityMember db (some u) row =
      Except.ok { db with community_members := db.community_members ++ [row] } := by
  unfold insertCommunityMember
  rw [h1, h2]
  simp [h3]

theorem insertProjectMember_ok_of_checks (db : DB) (u : Nat)
    (row : ProjectMemberRow)
    (h1 : (db.project_members.any (fun m => m.id == row.id)) = false)
    (h2 : (db.project_members.any
        (fun m => m.project_id == row.project_id &&
                  m.user_id == row.user_id)) = false)
    (h3 : row.user_id = u) :
    insertProjectMember db (some u) row =
      Except.ok { db with project_members := db.project_members ++ [row] } := by
  unfold insertProjectMember
  rw [h1, h2]
  simp [h3]

theorem insertStartupMember_ok_of_checks (db : DB) (u : Nat)
    (row : StartupMemberRow)
    (h1 : (db.startup_members.any (fun m => m.id == row.id)) = false)
    (h2 : (db.startup_members.any
        (fun m => m.startup_id == row.startup_id &&
                  m.user_id == row.user_id)) = false)
    (h3 : row.user_id = u) :
    insertStartupMember db (some u) row =
      Except.ok { db with startup_members := db.startup_members ++ [row] } := by
  unfold insertStartupMember
  rw [h1, h2]
  simp [h3]

/-- Claim C9: after every successful creation flow the creator holds a
membership row in the created entity — creating a community inserts a
`community_members` row for the creator, creating a project inserts a
`project_members` row with `participation_type` host, and creating a
startup inserts a `startup_members` row with role "founder".  The
hypotheses state that the fresh membership id is unused and that the
membership table satisfies its foreign-key integrity towards the entity
table (true of every reachable database state). -/
theorem C9_creator_membership (db : DB) (u : Nat) :
    (∀ (name desc : String) (isPublic : Bool) (code : Option String)
        (cid mid : Nat) (db' : DB),
      (∀ m ∈ db.community_members, m.id ≠ mid) →
      (∀ m ∈ db.community_members, ∃ c ∈ db.communities,
          c.id = m.community_id) →
      handleCreateFlow db (some u) name desc isPublic code cid mid =
        Except.ok db' →
      (⟨mid, cid, u⟩ : CommunityMemberRow) ∈ db'.community_members) ∧
    (∀ (title desc skills : String) (pid mid : Nat) (db' : DB),
      (∀ m ∈ db.project_members, m.id ≠ mid) →
      (∀ m ∈ db.project_members, ∃ pr ∈ db.projects, pr.id = m.project_id) →
      handleCreateProjectFlow db (some u) title desc skills pid mid =
        Except.ok db' →
      (⟨mid, pid, u, ParticipationType.host⟩ : ProjectMemberRow) ∈
        db'.project_members) ∧
    (∀ (name desc lookingFor : String) (sid mid : Nat) (db' : DB),
      (∀ m ∈ db.startup_members, m.id ≠ mid) →
      (∀ m ∈ db.startup_members, ∃ st ∈ db.startups, st.id = m.startup_id) →
      handleCreateStartupFlow db (some u) name desc lookingFor sid mid =
        Except.ok db' →
      (⟨mid, sid, u, some "founder"⟩ : StartupMemberRow) ∈
        db'.startup_members) := by
  refine ⟨?_, ?_, ?_⟩
  · intro name desc isPublic code cid mid db' hmid hfk h
    simp only [handleCreateFlow] at h
    cases hins : insertCommunity db (some u)
        ⟨cid, name, some desc, isPublic, false, none, code, some u⟩ with
    | error e => rw [hins] at h; cases h
    | ok db1 =>
      rw [hins] at h
      dsimp only at h
      cases h
      unfold insertCommunity at hins
      split at hins
      · cases hins
      · split at hins
        · cases hins
        · split at hins
          · cases hins
          · rename_i hpk _ _
            cases hins
            have hok := insertCommunityMember_ok_of_checks
              { db with communities := db.communities ++
                  [⟨cid, name, some desc, isPublic, false, none, code, some u⟩] }
              u ⟨mid, cid, u⟩
              (by
                rw [List.any_eq_false]
                intro m hm
                simp [hmid m hm])
              (by
                rw [List.any_eq_false]
                intro m hm
                intro hcontra
                rw [Bool.and_eq_true] at hcontra
                obtain ⟨c0, hc0, hcid⟩ := hfk m hm
                have h3 : m.community_id = cid := by simpa using hcontra.1
                exact hpk (List.any_eq_true.mpr ⟨c0, hc0, by simp [hcid, h3]⟩))
              rfl
            rw [hok]
            simp [orKeep]
  · intro title desc skills pid mid db' hmid hfk h
    simp only [handleCreateProjectFlow] at h
    cases hins : insertProject db (some u)
        ⟨pid, title, some desc, u, parseSkills skills, "open"⟩ with
    | error e => rw [hins] at h; cases h
    | ok db1 =>
      rw [hins] at h
      dsimp only at h
      cases h
      unfold insertProject at hins
      split at hins
      · cases hins
      · split at hins
        · cases hins
        · rename_i hpk _
          cases hins
          have hok := insertProjectMember_ok_of_checks
            { db with projects := db.projects ++
                [⟨pid, title, some desc, u, parseSkills skills, "open"⟩] }
            u ⟨mid, pid, u, ParticipationType.host⟩
            (by
              rw [List.any_eq_false]
              intro m hm
              simp [hmid m hm])
            (by
              rw [List.any_eq_false]
              intro m hm
              intro hcontra
              rw [Bool.and_eq_true] at hcontra
              obtain ⟨pr0, hpr0, hpid⟩ := hfk m hm
              have h3 : m.project_id = pid := by simpa using hcontra.1
              exact hpk (List.any_eq_true.mpr ⟨pr0, hpr0, by simp [hpid, h3]⟩))
            rfl
          rw [hok]
          simp [orKeep]
  · intro name desc lookingFor sid mid db' hmid hfk h
    simp only [handleCreateStartupFlow] at h
    cases hins : insertStartup db (some u)
        ⟨sid, name, some desc, u, some lookingFor, "active"⟩ with
    | error e => rw [hins] at h; cases h
    | ok db1 =>
      rw [hins] at h
      dsimp only at h
      cases h
      unfold insertStartup at hins
      split at hins
      · cases hins
      · split at hins
        · cases hins
        · rename_i hpk _
          cases hins
          have hok := insertStartupMember_ok_of_checks
            { db with startups := db.startups ++
                [⟨sid, name, some desc, u, some lookingFor, "active"⟩] }
            u ⟨mid, sid, u, some "founder"⟩
            (by
              rw [List.any_eq_false]
              intro m hm
              simp [hmid m hm])
            (by
              rw [List.any_eq_false]
              intro m hm
              intro hcontra
              rw [Bool.and_eq_true] at hcontra
              obtain ⟨st0, hst0, hsid⟩ := hfk m hm
              have h3 : m.startup_id = sid := by simpa using hcontra.1
              exact hpk (List.any_eq_true.mpr ⟨st0, hst0, by simp [hsid, h3]⟩))
            rfl
          rw [hok]
          simp [orKeep]

end Twindle

namespace Twindle

/-- Witness for C9: starting from the empty database, user 1 creates a
community, a project and a startup; in each resulting database the creator
holds the corresponding membership row (host / founder). -/
theorem C9_creator_membership_witness :
    (∃ db', handleCreateFlow DB.empty (some 1) "n" "d" true none 7 2 =
        Except.ok db' ∧
      (⟨2, 7, 1⟩ : CommunityMemberRow) ∈ db'.community_members) ∧
    (∃ db', handleCreateProjectFlow DB.empty (some 1) "t" "d" "" 8 3 =
        Except.ok db' ∧
      (⟨3, 8, 1, ParticipationType.host⟩ : ProjectMemberRow) ∈
        db'.project_members) ∧
    (∃ db', handleCreateStartupFlow DB.empty (some 1) "s" "d" "x" 9 4 =
        Except.ok db' ∧
      (⟨4, 9, 1, some "founder"⟩ : StartupMemberRow) ∈ db'.startup_members) :=
  ⟨⟨_, rfl, (C9_creator_membership DB.empty 1).1 "n" "d" true none 7 2 _
      (by decide) (by decide) rfl⟩,
   ⟨_, rfl, (C9_creator_membership DB.empty 1).2.1 "t" "d" "" 8 3 _
      (by decide) (by decide) rfl⟩,
   ⟨_, rfl, (C9_creator_membership DB.empty 1).2.2 "s" "d" "x" 9 4 _
      (by decide) (by decide) rfl⟩⟩

theorem insertProjectMember_preserves_projects (db : DB) (uid : Option Nat)
    (row : ProjectMemberRow) (db' : DB)
    (h : insertProjectMember db uid row = Except.ok db') :
    db'.projects = db.projects := by
  unfold insertProjectMember at h
  split at h
  · cases h
  · split at h
    · cases h
    · split at h
      · cases h
      · cases h; rfl

theorem jsSplitComma_ne_nil (l : List Char) : jsSplitComma l ≠ [] := by
  induction l with
  | nil => simp [jsSplitComma]
  | cons c rest _ =>
    unfold jsSplitComma
    split
    · simp
    · cases h : jsSplitComma rest <;> simp

/-- Claim C10: a created project stores `skills_required` as the
comma-split, whitespace-trimmed pieces of the skills form input
(`skills.split(',').map(s => s.trim())`); for the empty skills input the
stored list is the one-element list containing the empty string, and the
stored list is never the empty list. -/
theorem C10_skills_parsing (db : DB) (u : Nat) :
    (∀ (skills title desc : String) (pid mid : Nat) (db' : DB),
      handleCreateProjectFlow db (some u) title desc skills pid mid =
        Except.ok db' →
      ∃ p ∈ db'.projects, p.id = pid ∧
        p.skills_required = parseSkills skills) ∧
    parseSkills "" = [""] ∧
    (∀ s : String, parseSkills s ≠ []) := by
  refine ⟨?_, rfl, ?_⟩
  · intro skills title desc pid mid db' h
    simp only [handleCreateProjectFlow] at h
    cases hins : insertProject db (some u)
        ⟨pid, title, some desc, u, parseSkills skills, "open"⟩ with
    | error e => rw [hins] at h; cases h
    | ok db1 =>
      rw [hins] at h
      dsimp only at h
      cases h
      have hproj : (orKeep (insertProjectMember db1 (some u)
          ⟨mid, pid, u, ParticipationType.host⟩) db1).projects =
          db1.projects := by
        unfold orKeep
        cases hm : insertProjectMember db1 (some u)
            ⟨mid, pid, u, ParticipationType.host⟩ with
        | error e => rfl
        | ok db2 =>
          exact insertProjectMember_preserves_projects db1 (some u) _ db2 hm
      rw [hproj]
      unfold insertProject at hins
      split at hins
      · cases hins
      · split at hins
        · cases hins
        · cases hins
          exact ⟨⟨pid, title, some desc, u, parseSkills skills, "open"⟩,
            by simp, rfl, rfl⟩
  · intro s hcontra
    unfold parseSkills at hcontra
    exact jsSplitComma_ne_nil s.toList (List.map_eq_nil_iff.mp hcontra)

/-- Witness for C10: user 1 creates a project with the empty skills input;
the stored project row carries `skills_required = parseSkills "" = [""]`,
and a nonempty input also yields a nonempty stored list. -/
theorem C10_skills_parsing_witness :
    (∃ db', handleCreateProjectFlow DB.empty (some 1) "t" "d" "" 8 3 =
        Except.ok db' ∧
      ∃ p ∈ db'.projects, p.id = 8 ∧ p.skills_required = parseSkills "") ∧
    parseSkills "" = [""] ∧
    parseSkills "a, b" ≠ [] :=
  ⟨⟨_, rfl, (C10_skills_parsing DB.empty 1).1 "" "t" "d" 8 3 _ rfl⟩,
   (C10_skills_parsing DB.empty 1).2.1,
   (C10_skills_parsing DB.empty 1).2.2 "a, b"⟩

end Twindle
